import Mathlib

/-!
Shallow embedding of the tenant lifecycle and isolation subsystem of the
nectarDashboard backend (parent service and child service), together with
proofs about the claims of the specification.

Conventions of the embedding:
- database rows become fields of a Registry value; SQLAlchemy queries by
  subdomain become List.find? over that value;
- timestamps are integral seconds, so datetime subtraction becomes Int
  subtraction;
- external HTTP collaborators (Cloudflare, the certificate manager, the
  admin seeding insert, the parent validation endpoint) are injected as
  explicit outcome values, since their responses are inputs of the control
  flow being modelled;
- Python exceptions become Except values; the exception class hierarchy
  relevant to the middleware (HTTPException, NameError, httpx timeouts) is
  an explicit inductive so that the except-clause dispatch of the source is
  a match on constructors.
-/

namespace Nectar

/-- TenantRecord row (models.ClientSite), restricted to the columns the
claims are about. -/
structure ClientSite where
  id : String
  subdomain : String
  name : String
  status : String
  is_active : Bool
  last_seen : Option Int := none
  deriving Repr, DecidableEq

/-- Projection of the extra_metadata map written by
ClientSiteProvisioningService.create_client_site on its completed log
entry, restricted to the step flags the claims are about. -/
structure StepMetadata where
  dns_created : Bool
  dns_record_id : Option String
  ssl_certificate_issued : Bool
  admin_user_seeded : Bool
  deriving Repr, DecidableEq

/-- ProvisioningLogEntry row (models.ClientSiteProvisioningLog). -/
structure ProvisioningLog where
  client_site_id : Option String
  subdomain : String
  action : String
  status : String
  error_message : Option String := none
  extra_metadata : Option StepMetadata := none
  deriving Repr, DecidableEq

/-- The durable registry state: the client_sites table and the
provisioning log table. -/
structure Registry where
  sites : List ClientSite
  logs : List ProvisioningLog
  deriving Repr, DecidableEq

/-- db.query(ClientSite).filter(ClientSite.subdomain == subdomain).first() -/
def findSite (reg : Registry) (subdomain : String) : Option ClientSite :=
  reg.sites.find? (fun c => c.subdomain == subdomain)

namespace Crud

/-- Shape of the dict returned by crud.get_client_site_status. -/
structure HeartbeatStatus where
  alive : Bool
  last_seen : Option Int
  deriving Repr, DecidableEq

/-- crud.get_client_site_status: none when the site is unknown, otherwise
alive is computed from the last_seen heartbeat against now (seconds):
is_alive = False unless last_seen is set and now - last_seen < 300. -/
def get_client_site_status (reg : Registry) (subdomain : String) (now : Int) :
    Option HeartbeatStatus :=
  match findSite reg subdomain with
  | none => none
  | some c =>
      let is_alive : Bool :=
        match c.last_seen with
        | some t => decide (now - t < 300)
        | none => false
      some { alive := is_alive, last_seen := c.last_seen }

end Crud

namespace ParentMain

/-- The names parent main.py imports from crud (lines 22-25). No
other statement of that module binds the name get_tenant_status
(there are no star imports; the only similarly named binding is the
endpoint function get_tenant_status_endpoint itself). -/
def crudImports : List String :=
  ["create_client_site", "get_client_site",
   "get_client_site_by_subdomain", "list_client_sites",
   "activate_client_site", "deactivate_client_site",
   "update_heartbeat", "get_client_site_status", "ClientSiteCreate",
   "ClientSiteResponse", "ClientSiteActivationResponse", "list_events",
   "ClientSiteEventResponse", "log_event"]

/-- Outcome of one request to the heartbeat status endpoint: the JSON
reply carrying the status dict, or the 500 answer FastAPI produces for
an exception no handler catches. -/
inductive EndpointResult where
  | json (status_code : Nat) (body : Option Crud.HeartbeatStatus)
  | serverError (status_code : Nat) (exc : String)
  deriving Repr, DecidableEq

/-- get_tenant_status_endpoint (parent main.py lines 251-255): the body
evaluates the module-global name get_tenant_status and would return its
result; that name resolves against the module globals, which hold
get_client_site_status imported from crud but nothing named
get_tenant_status, so the lookup fails, every request raises NameError,
and FastAPI answers 500. The imported crud.get_client_site_status is
never called by the program. -/
def get_tenant_status_endpoint (reg : Registry) (subdomain : String)
    (now : Int) : EndpointResult :=
  if crudImports.contains "get_tenant_status" then
    .json 200 (Crud.get_client_site_status reg subdomain now)
  else
    .serverError 500 "NameError: name get_tenant_status is not defined"

end ParentMain

namespace Service

/-- Errors surfaced by ClientSiteProvisioningService. Python raises
ValueError with these two message shapes; FastAPI maps them to 400 for
the provisioning endpoint and 404 for the lifecycle endpoints. A failure
of the fatal schema step re-raises the underlying exception, modelled as
stepFailed with its message. -/
inductive SvcError where
  | alreadyExists (subdomain : String)
  | notFound (subdomain : String)
  | stepFailed (msg : String)
  deriving Repr, DecidableEq

/-- Result row of cloudflare ensure_dns_record as consumed by the
provisioning service (a Cloudflare DNS record dict). -/
structure DnsResult where
  id : String
  name : String
  deriving Repr, DecidableEq

/-- Outcome of cert_manager.issue_certificate inside the provisioning
try block: a (True,msg) pair, a (False,msg) pair, or a raised
exception whose message is caught by the inner handler. -/
inductive SslOutcome where
  | issued (msg : String)
  | failed (msg : String)
  | raised (msg : String)
  deriving Repr, DecidableEq

/-- The external world as seen by one run of create_client_site: the
configuration checks and the responses of the fallible collaborators.
admin_seed_ok records whether the seeding INSERT actually succeeded;
the source swallows its failure inside _seed_admin_user, so the
service code cannot observe this field, only the step-success ground
truth for the log metadata refers to it. -/
structure CreateEnv where
  cloudflare_configured : Bool
  dns_ensure_result : Option DnsResult
  cert_manager_configured : Bool
  ssl_outcome : SslOutcome
  schema_failure : Option String
  admin_seed_ok : Bool
  new_id : String
  deriving Repr, DecidableEq

/-- External side effects performed by one run of create_client_site, in
order: the fatal schema creation, the Cloudflare ensure call, the
certificate issuance, the admin seeding insert. -/
inductive ExtCall where
  | schemaCreate
  | dnsEnsure
  | sslIssue
  | adminSeed
  deriving Repr, DecidableEq

/-- ssl_result value built by the SSL step of create_client_site. -/
structure SslResult where
  success : Bool
  message : String
  deriving Repr, DecidableEq

/-- The ssl_result local of create_client_site: None when the
certificate manager is not configured, otherwise the dict recording
the outcome (a raised exception is caught and recorded as failure). -/
def sslResultOf (env : CreateEnv) : Option SslResult :=
  if env.cert_manager_configured then
    match env.ssl_outcome with
    | .issued m => some { success := true, message := m }
    | .failed m => some { success := false, message := m }
    | .raised m => some { success := false, message := m }
  else none

/-- The dns_result local of create_client_site: the ensure_dns_record
response when Cloudflare is configured, None when the step is skipped. -/
def dnsResultOf (env : CreateEnv) : Option DnsResult :=
  if env.cloudflare_configured then env.dns_ensure_result else none

/-- ClientSiteProvisioningService.create_client_site. Control flow of the
source: duplicate-subdomain check first (raising before any step); then
the fatal schema step (on failure: rollback, append a failed log entry,
re-raise); then the soft-fail DNS, SSL and admin-seed steps; then the
TenantRecord insert with status active and the completed log entry whose
extra_metadata is built from dns_result, ssl_result and a hardcoded
admin_user_seeded = True. Returns the result, the new registry state and
the ordered trace of external calls performed. -/
def create_client_site (env : CreateEnv) (reg : Registry)
    (subdomain name : String) :
    Except SvcError ClientSite × Registry × List ExtCall :=
  match findSite reg subdomain with
  | some _ => (.error (.alreadyExists subdomain), reg, [])
  | none =>
    match env.schema_failure with
    | some msg =>
        let failedLog : ProvisioningLog :=
          { client_site_id := none, subdomain := subdomain,
            action := "create", status := "failed",
            error_message := some msg }
        (.error (.stepFailed msg),
         { reg with logs := reg.logs ++ [failedLog] },
         [.schemaCreate])
    | none =>
        let dns_result := dnsResultOf env
        let dnsTrace : List ExtCall :=
          if env.cloudflare_configured then [.dnsEnsure] else []
        let ssl_result := sslResultOf env
        let sslTrace : List ExtCall :=
          if env.cert_manager_configured then [.sslIssue] else []
        let site : ClientSite :=
          { id := env.new_id, subdomain := subdomain, name := name,
            status := "active", is_active := true }
        let meta : StepMetadata :=
          { dns_created := dns_result.isSome,
            dns_record_id := dns_result.map (fun r => r.id),
            ssl_certificate_issued := ((ssl_result.map
              (fun r => r.success)).getD false),
            admin_user_seeded := true }
        let log : ProvisioningLog :=
          { client_site_id := some env.new_id, subdomain := subdomain,
            action := "create", status := "completed",
            extra_metadata := some meta }
        (.ok site,
         { sites := reg.sites ++ [site], logs := reg.logs ++ [log] },
         [.schemaCreate] ++ dnsTrace ++ sslTrace ++ [.adminSeed])

/-- ClientSiteProvisioningService.get_client_site_status: raises
ValueError (not found) when no row matches the subdomain, otherwise
returns the status envelope; only the record part matters to the
claims. -/
def get_client_site_status (reg : Registry) (subdomain : String) :
    Except SvcError ClientSite :=
  match findSite reg subdomain with
  | none => .error (.notFound subdomain)
  | some c => .ok c

/-- ClientSiteProvisioningService.suspend_client_site: not-found check,
then unconditionally set status suspended and is_active False and append
a completed suspend log entry. No state-machine validation exists in the
source. -/
def suspend_client_site (reg : Registry) (subdomain : String) :
    Except SvcError (ClientSite × Registry) :=
  match findSite reg subdomain with
  | none => .error (.notFound subdomain)
  | some c =>
      let c2 := { c with status := "suspended", is_active := false }
      let log : ProvisioningLog :=
        { client_site_id := some c.id, subdomain := subdomain,
          action := "suspend", status := "completed" }
      .ok (c2,
        { sites := reg.sites.map
            (fun x => if x.subdomain == subdomain then c2 else x),
          logs := reg.logs ++ [log] })

/-- ClientSiteProvisioningService.activate_client_site: not-found check,
then unconditionally set status active and is_active True and append a
completed activate log entry. No state-machine validation exists in the
source. -/
def activate_client_site (reg : Registry) (subdomain : String) :
    Except SvcError (ClientSite × Registry) :=
  match findSite reg subdomain with
  | none => .error (.notFound subdomain)
  | some c =>
      let c2 := { c with status := "active", is_active := true }
      let log : ProvisioningLog :=
        { client_site_id := some c.id, subdomain := subdomain,
          action := "activate", status := "completed" }
      .ok (c2,
        { sites := reg.sites.map
            (fun x => if x.subdomain == subdomain then c2 else x),
          logs := reg.logs ++ [log] })

/-- ClientSiteProvisioningService.delete_client_site: not-found check,
best-effort external cleanup (DNS, certificate, schema), then hard
deletion of the provisioning log rows and event rows owned by the site
and of the TenantRecord row itself. The external cleanup outcomes do not
affect the registry result, so they are omitted here. -/
def delete_client_site (reg : Registry) (subdomain : String) :
    Except SvcError Registry :=
  match findSite reg subdomain with
  | none => .error (.notFound subdomain)
  | some c =>
      .ok { sites := reg.sites.filter (fun x => !(x.id == c.id)),
            logs := reg.logs.filter
              (fun l => !(l.client_site_id == some c.id)) }

end Service

namespace Cloudflare

/-- A DNS record held by the remote zone (the fields the service reads
and writes: id, name, type, content). -/
structure DnsRecord where
  id : String
  name : String
  rtype : String
  content : String
  deriving Repr, DecidableEq

/-- Remote Cloudflare zone state plus the local configuration check.
nextId supplies the identifier the API assigns to a newly created
record. The remote API is modelled as answering successfully; the
claims about ensure_dns_record are about its drift-handling logic, not
about transport failures. -/
structure DnsState where
  configured : Bool
  records : List DnsRecord
  nextId : Nat
  deriving Repr, DecidableEq

/-- A write performed against the remote zone: a POST creating a record
or a PUT updating one. -/
inductive DnsWrite where
  | createRec (name content : String)
  | updateRec (id name content : String)
  deriving Repr, DecidableEq

/-- CloudflareDNSService.get_dns_record: list records filtered by name
and type, take the first result; None when unconfigured or absent. -/
def get_dns_record (s : DnsState) (subdomain : String)
    (rtype : String := "A") : Option DnsRecord :=
  if s.configured then
    (s.records.filter
      (fun r => r.name == subdomain && r.rtype == rtype)).head?
  else none

/-- CloudflareDNSService.create_dns_record: POST a new record; returns
the created record dict. -/
def create_dns_record (s : DnsState) (subdomain ip_address : String)
    (rtype : String := "A") :
    Option DnsRecord × DnsState × List DnsWrite :=
  if s.configured then
    let rec0 : DnsRecord :=
      { id := toString s.nextId, name := subdomain, rtype := rtype,
        content := ip_address }
    (some rec0,
     { s with records := s.records ++ [rec0], nextId := s.nextId + 1 },
     [.createRec subdomain ip_address])
  else (none, s, [])

/-- CloudflareDNSService.update_dns_record: PUT the record with the given
id, replacing name, type and content; returns success. -/
def update_dns_record (s : DnsState) (record_id subdomain ip_address : String)
    (rtype : String := "A") : Bool × DnsState × List DnsWrite :=
  if s.configured then
    (true,
     { s with records := s.records.map (fun r =>
         if r.id == record_id then
           { r with
             name := subdomain,
             rtype := rtype,
             content := ip_address }
         else r) },
     [.updateRec record_id subdomain ip_address])
  else (false, s, [])

/-- CloudflareDNSService.ensure_dns_record: fetch the current record for
the subdomain; if present and its content differs, update it; if present
with equal content, no-op and return it; if absent, create it. -/
def ensure_dns_record (s : DnsState) (subdomain ip_address : String)
    (rtype : String := "A") :
    Option DnsRecord × DnsState × List DnsWrite :=
  if s.configured then
    match get_dns_record s subdomain rtype with
    | some existing =>
        if existing.content != ip_address then
          let u := update_dns_record s existing.id subdomain ip_address rtype
          if u.1 then
            (some { existing with content := ip_address }, u.2.1, u.2.2)
          else (none, u.2.1, u.2.2)
        else (some existing, s, [])
    | none => create_dns_record s subdomain ip_address rtype
  else (none, s, [])

/-- Number of records the remote zone holds for a name (A records, the
type ensure_dns_record manages). -/
def recordCount (s : DnsState) (subdomain : String) : Nat :=
  (s.records.filter
    (fun r => r.name == subdomain && r.rtype == "A")).length

end Cloudflare

namespace ChildMiddleware

/-- Python str.split on a single separator character, on the character
list of the string: every occurrence splits, empty segments are kept,
and the empty string yields one empty segment. -/
def splitChar (sep : Char) : List Char → List (List Char)
  | [] => [[]]
  | c :: rest =>
      let r := splitChar sep rest
      if c == sep then [] :: r
      else
        match r with
        | [] => [[c]]
        | h :: t => (c :: h) :: t

/-- Python host.split(sep) as a list of strings. -/
def splitOnChar (sep : Char) (s : String) : List String :=
  (splitChar sep s.toList).map List.asString

/-- middleware.get_subdomain_from_host: empty host gives the empty
string; the port is dropped; with more than two dot-separated labels the
first label is the subdomain; with exactly two labels the first is the
subdomain unless it is the literal localhost; otherwise empty. -/
def get_subdomain_from_host (host : String) : String :=
  if host = "" then ""
  else
    let h := if host.toList.contains ':' then
        (splitOnChar ':' host).headD ""
      else host
    let parts := splitOnChar '.' h
    if parts.length > 2 then parts.headD ""
    else if parts.length = 2 then
      if parts.headD "" != "localhost" then parts.headD "" else ""
    else ""

/-- Decision of the regular expression check of
middleware.validate_subdomain_format: every character alphanumeric or a
hyphen (note the source accepts uppercase letters). -/
def subdomainCharsOk (subdomain : String) : Bool :=
  subdomain.toList.all (fun c =>
    c.isAlpha || c.isDigit || c == '-')

/-- middleware.validate_subdomain_format: nonempty, characters
alphanumeric or hyphen, length between 1 and 63, no leading or trailing
hyphen (the Python startswith and endswith checks read here on the first
and last character). This is the only subdomain format check in the
repository; it guards inbound child-service requests, not
provisioning. -/
def validate_subdomain_format (subdomain : String) : Bool :=
  if subdomain = "" then false
  else if !(subdomainCharsOk subdomain) then false
  else if subdomain.length < 1 || subdomain.length > 63 then false
  else if (subdomain.toList.head? == some '-') ||
      (subdomain.toList.getLast? == some '-') then false
  else true

/-- The claims carried by a decoded bearer token. -/
structure JwtClaims where
  sub : Option String
  client_id : Option String
  deriving Repr, DecidableEq

/-- A presented bearer token: its claims and whether
jwt.decode followed by claims.validate succeeds on it (signature and
standard time claims). -/
structure BearerToken where
  claims : JwtClaims
  valid : Bool
  deriving Repr, DecidableEq

/-- The parts of an inbound request read by validate_jwt_client_id.
authorization is none when the Authorization header is absent or does
not start with the Bearer scheme; header and query fallbacks default to
the empty string as in the source. -/
structure AuthRequest where
  authorization : Option BearerToken
  host : String
  x_client_site_id : String
  subdomain_query : String
  deriving Repr, DecidableEq

/-- The auth context dict returned by validate_jwt_client_id: user,
client_id, and the tenant dict with the resolved subdomain and the
claim-supplied id. -/
structure AuthContext where
  user : Option String
  client_id : Option String
  tenant_subdomain : String
  tenant_id : Option String
  deriving Repr, DecidableEq

/-- HTTPException raised by the auth path (status code and detail). -/
structure AuthHttpError where
  status_code : Nat
  detail : String
  deriving Repr, DecidableEq

/-- The or-chain of middleware.validate_jwt_client_id line 386: host
subdomain, else X-Client-Site-ID header, else subdomain query parameter,
else the literal localhost. -/
def resolve_subdomain (req : AuthRequest) : String :=
  let s1 := get_subdomain_from_host req.host
  let s2 := if s1 != "" then s1 else req.x_client_site_id
  let s3 := if s2 != "" then s2 else req.subdomain_query
  if s3 != "" then s3 else "localhost"

/-- middleware.validate_jwt_client_id: 401 when the bearer token is
missing; 401 when decoding or claim validation fails; otherwise the auth
context is returned built from the token claims and the resolved
subdomain. The source performs no comparison between client_id and the
resolved tenant and no check that client_id is present. -/
def validate_jwt_client_id (req : AuthRequest) :
    Except AuthHttpError AuthContext :=
  match req.authorization with
  | none => .error { status_code := 401, detail := "Missing bearer token" }
  | some tok =>
      if tok.valid then
        .ok { user := tok.claims.sub,
              client_id := tok.claims.client_id,
              tenant_subdomain := resolve_subdomain req,
              tenant_id := tok.claims.client_id }
      else .error { status_code := 401, detail := "Invalid token" }

end ChildMiddleware

namespace ParentMiddleware

/-- JSON body returned by the parent lookup for a client site, restricted
to the keys the middleware reads. -/
structure ClientSiteData where
  id : String
  subdomain : String
  is_active : Bool
  status : String
  deriving Repr, DecidableEq

/-- Outcome of the httpx GET against the parent service inside
validate_client_site: a 200 with a body, a non-200 status, or one of the
two transport exceptions the source catches specifically. -/
inductive ParentResponse where
  | ok (data : ClientSiteData)
  | failure (status_code : Nat)
  | timeout
  | connectError
  deriving Repr, DecidableEq

/-- Python exceptions flowing through
ClientSiteMiddleware.validate_client_site: fastapi HTTPException, the
NameError raised by the undefined name on the success branch, and the
two httpx transport exceptions. -/
inductive PyExc where
  | httpExc (status_code : Nat) (detail : String)
  | nameErr (name : String)
  | timeoutExc
  | connectExc
  deriving Repr, DecidableEq

/-- The parts of an inbound request read by the parent middleware. The
has_unexpected_header flag is the result of the header scan of
detect_header_tampering (some header starts with X-Client-Site- and is
neither of the two known ones). -/
structure MwRequest where
  bypass_validation : Bool
  path : String
  x_client_site_id : Option String
  x_client_site_uuid : Option String
  has_unexpected_header : Bool
  deriving Repr, DecidableEq

/-- The try block of validate_client_site, given the response of the
parent lookup. On a 200 body: inactive flag gives a 403, non-active
status gives a 403; otherwise the source assigns request.state and then
evaluates the undefined name tenant_data, raising NameError after the
state assignment. A non-200 gives a 404; the transport exceptions
propagate. First component: the Python outcome; second component: what
was assigned to request.state.client_site before the outcome. -/
def validate_try_body (subdomain_header : String) (resp : ParentResponse) :
    Except PyExc (Option ClientSiteData) × Option ClientSiteData :=
  match resp with
  | .timeout => (.error .timeoutExc, none)
  | .connectError => (.error .connectExc, none)
  | .ok d =>
      if !d.is_active then
        (.error (.httpExc 403
          ("Client site " ++ subdomain_header ++ " is not active")), none)
      else if d.status != "active" then
        (.error (.httpExc 403
          ("Client site " ++ subdomain_header ++ " status is " ++ d.status)),
         none)
      else
        (.error (.nameErr "tenant_data"), some d)
  | .failure _ =>
      (.error (.httpExc 404
        ("Client site " ++ subdomain_header ++ " not found")), none)

/-- ClientSiteMiddleware.validate_client_site of the parent service:
early returns (bypass flag, auth endpoints, missing X-Client-Site-ID
header) yield None; otherwise the try block runs and its except clauses
map a timeout to 503, a connection error to 503, and every other
exception, including the HTTPException rejections raised inside the try
and the success-branch NameError, to a 500 HTTPException. -/
def validate_client_site (req : MwRequest) (resp : ParentResponse) :
    Except PyExc (Option ClientSiteData) × Option ClientSiteData :=
  if req.bypass_validation then (.ok none, none)
  else if req.path == "/token" || req.path == "/users/me" then
    (.ok none, none)
  else
    match req.x_client_site_id with
    | none => (.ok none, none)
    | some sub =>
        let body := validate_try_body sub resp
        match body.1 with
        | .error .timeoutExc =>
            (.error (.httpExc 503
              "Unable to validate client site - parent service unavailable"),
             body.2)
        | .error .connectExc =>
            (.error (.httpExc 503
              "Unable to validate client site - parent service connection failed"),
             body.2)
        | .error _ =>
            (.error (.httpExc 500 "Error validating client site"), body.2)
        | .ok v => (.ok v, body.2)

/-- ClientSiteMiddleware.detect_header_tampering: when both known client
site headers are present the check returns False immediately; otherwise
it reports whether an unexpected X-Client-Site- header is present. -/
def detect_header_tampering (req : MwRequest) : Bool :=
  if req.x_client_site_id.isSome && req.x_client_site_uuid.isSome then
    false
  else req.has_unexpected_header

/-- What the middleware wrapper delivers: an early JSON response with a
status code, or the request passed to call_next carrying whatever
request.state.client_site holds. -/
inductive MwOutcome where
  | jsonResponse (status_code : Nat)
  | handled (attached : Option ClientSiteData)
  deriving Repr, DecidableEq

/-- validate_client_site_middleware: run validation, then the tampering
check, then call_next; an HTTPException becomes a JSON response with its
status code, any other exception a 500 JSON response. -/
def validate_client_site_middleware (req : MwRequest)
    (resp : ParentResponse) : MwOutcome :=
  let v := validate_client_site req resp
  match v.1 with
  | .error (.httpExc code _) => .jsonResponse code
  | .error _ => .jsonResponse 500
  | .ok _ =>
      if detect_header_tampering req then .jsonResponse 400
      else .handled v.2

end ParentMiddleware

namespace Service

/-- Ground truth of the DNS soft-fail step for one run: the step ran and
the ensure call returned a record. -/
def dns_step_succeeded (env : CreateEnv) : Bool :=
  env.cloudflare_configured && env.dns_ensure_result.isSome

/-- Ground truth of the certificate soft-fail step for one run: the step
ran and issue_certificate reported success. -/
def ssl_step_succeeded (env : CreateEnv) : Bool :=
  env.cert_manager_configured &&
    (match env.ssl_outcome with
     | .issued _ => true
     | .failed _ => false
     | .raised _ => false)

/-- Ground truth of the admin-seed soft-fail step for one run: the
seeding INSERT succeeded (its failure is swallowed by _seed_admin_user,
so the caller cannot observe this value). -/
def admin_step_succeeded (env : CreateEnv) : Bool :=
  env.admin_seed_ok

end Service

namespace Fixtures

/-- Registry with no tenants. -/
def emptyReg : Registry := { sites := [], logs := [] }

/-- A tenant whose last heartbeat is 400 seconds before the reference
time 1000. -/
def siteStale : ClientSite :=
  { id := "s1", subdomain := "stale", name := "Stale",
    status := "active", is_active := true, last_seen := some 600 }

/-- A tenant whose last heartbeat is 10 seconds before the reference
time 1000. -/
def siteFresh : ClientSite :=
  { id := "s2", subdomain := "fresh", name := "Fresh",
    status := "active", is_active := true, last_seen := some 990 }

/-- A tenant that has never sent a heartbeat. -/
def siteNever : ClientSite :=
  { id := "s3", subdomain := "never", name := "Never",
    status := "active", is_active := true, last_seen := none }

/-- Registry used by the heartbeat-status witness. -/
def regHeartbeat : Registry :=
  { sites := [siteStale, siteFresh, siteNever], logs := [] }

/-- Provisioning environment with every external collaborator
unconfigured or absent and the fatal step succeeding. -/
def benignEnv : Service.CreateEnv :=
  { cloudflare_configured := false, dns_ensure_result := none,
    cert_manager_configured := false, ssl_outcome := .failed "skip",
    schema_failure := none, admin_seed_ok := true, new_id := "id-1" }

/-- Provisioning environment in which the fatal storage-namespace step
raises. -/
def envSchemaFail : Service.CreateEnv :=
  { cloudflare_configured := false, dns_ensure_result := none,
    cert_manager_configured := false, ssl_outcome := .failed "skip",
    schema_failure := some "schema creation failed",
    admin_seed_ok := true, new_id := "id-2" }

/-- Provisioning environment in which the admin-seeding INSERT fails
(swallowed by the source). -/
def envAdminFail : Service.CreateEnv :=
  { cloudflare_configured := false, dns_ensure_result := none,
    cert_manager_configured := false, ssl_outcome := .failed "skip",
    schema_failure := none, admin_seed_ok := false, new_id := "id-3" }

/-- Configured Cloudflare zone holding no records. -/
def dnsEmpty : Cloudflare.DnsState :=
  { configured := true, records := [], nextId := 7 }

/-- Configured Cloudflare zone holding one drifted A record for acme. -/
def dnsDrift : Cloudflare.DnsState :=
  { configured := true,
    records := [{ id := "r9", name := "acme", rtype := "A",
                  content := "9.9.9.9" }],
    nextId := 3 }

/-- An active tenant named acme. -/
def siteAcme : ClientSite :=
  { id := "a1", subdomain := "acme", name := "Acme",
    status := "active", is_active := true }

/-- Registry holding only the acme tenant. -/
def regAcme : Registry := { sites := [siteAcme], logs := [] }

/-- A tenant still in pending status. -/
def sitePending : ClientSite :=
  { id := "p1", subdomain := "pend", name := "Pending",
    status := "pending", is_active := false }

/-- Registry holding only the pending tenant. -/
def regPending : Registry := { sites := [sitePending], logs := [] }

/-- A valid bearer token minted for tenant-a. -/
def tokenMismatch : ChildMiddleware.BearerToken :=
  { claims := { sub := some "user@example.com",
                client_id := some "tenant-a" },
    valid := true }

/-- A request presenting the tenant-a token against a host that resolves
to tenant-b. -/
def reqMismatch : ChildMiddleware.AuthRequest :=
  { authorization := some tokenMismatch,
    host := "tenant-b.example.com",
    x_client_site_id := "", subdomain_query := "" }

/-- A parent-service request carrying a tenant context. -/
def reqCtx : ParentMiddleware.MwRequest :=
  { bypass_validation := false, path := "/properties",
    x_client_site_id := some "acme", x_client_site_uuid := none,
    has_unexpected_header := false }

/-- Parent lookup body for an existing but suspended tenant. -/
def inactiveData : ParentMiddleware.ClientSiteData :=
  { id := "a1", subdomain := "acme", is_active := false,
    status := "suspended" }

/-- Parent lookup body for an existing active tenant. -/
def activeData : ParentMiddleware.ClientSiteData :=
  { id := "a1", subdomain := "acme", is_active := true,
    status := "active" }

/-- The record persisted by the create run under envAdminFail. -/
def siteAdminFail : ClientSite :=
  { id := "id-3", subdomain := "acme", name := "Acme",
    status := "active", is_active := true }

/-- The registry produced by the create run under envAdminFail. -/
def regAfterAdminFail : Registry :=
  { sites := [siteAdminFail],
    logs := [{ client_site_id := some "id-3", subdomain := "acme",
               action := "create", status := "completed",
               error_message := none,
               extra_metadata := some
                 { dns_created := false, dns_record_id := none,
                   ssl_certificate_issued := false,
                   admin_user_seeded := true } }] }

end Fixtures

/-! Helper lemmas shared by the claim proofs. -/

theorem find?_append_singleton {α : Type} (p : α → Bool) (l : List α)
    (c : α) (h : l.find? p = none) (hc : p c = true) :
    (l ++ [c]).find? p = some c := by
  induction l with
  | nil => simp [List.find?, hc]
  | cons a t ih =>
      cases hpa : p a with
      | true =>
          have hfa : List.find? p (a :: t) = some a := by
            simp [List.find?_cons, hpa]
          rw [hfa] at h
          exact absurd h (by simp)
      | false =>
          simp only [List.cons_append, List.find?_cons, hpa] at h ⊢
          exact ih h

theorem filter_eq_nil_of_find?_eq_none {α : Type} (p : α → Bool)
    (l : List α) (h : l.find? p = none) : l.filter p = [] := by
  rw [List.filter_eq_nil_iff]
  intro a ha
  rw [List.find?_eq_none] at h
  exact fun hpa => h a ha hpa

/-! Claim theorems. -/

/-- C7: code bug in the cited endpoint layer. The status endpoint of
the parent service evaluates the undefined name get_tenant_status, so
every status request is answered with a NameError-driven 500 and the
status operation never reports alive for any tenant; in particular the
tenant last seen 10 seconds before now, for which the imported but
never-called crud helper computes alive true exactly as the claim
states, receives a 500 instead. -/
theorem get_tenant_status_endpoint_raises_name_error :
    ParentMain.crudImports.contains "get_tenant_status" = false ∧
    ParentMain.get_tenant_status_endpoint Fixtures.regHeartbeat "fresh"
      1000 = .serverError 500
        "NameError: name get_tenant_status is not defined" ∧
    Crud.get_client_site_status Fixtures.regHeartbeat "fresh" 1000 =
      some { alive := true, last_seen := some 990 } ∧
    (∀ (reg : Registry) (subdomain : String) (now : Int),
      ParentMain.get_tenant_status_endpoint reg subdomain now =
        .serverError 500
          "NameError: name get_tenant_status is not defined") := by
  refine ⟨by decide, by decide, by decide, ?_⟩
  intro reg subdomain now
  simp only [ParentMain.get_tenant_status_endpoint]
  rw [if_neg]
  intro hmem
  exact absurd hmem (by decide)

/-- Supporting lemma for the heartbeat status computation: for every
tenant record the crud-level lookup finds, the computed alive flag is
true exactly when now minus last_seen is below 300 seconds, and a
record without a last_seen heartbeat computes alive false. This is the
helper parent main.py imports for its status endpoint but never
reaches, because the endpoint body raises NameError first. -/
theorem get_client_site_status_alive_iff_recent
    (reg : Registry) (subdomain : String) (now : Int) (c : ClientSite)
    (h : findSite reg subdomain = some c) :
    ∃ st, Crud.get_client_site_status reg subdomain now = some st ∧
      st.last_seen = c.last_seen ∧
      (st.alive = true ↔ ∃ t, c.last_seen = some t ∧ now - t < 300) := by
  cases hls : c.last_seen with
  | none =>
      refine ⟨{ alive := false, last_seen := none }, ?_, ?_, ?_⟩
      · simp [Crud.get_client_site_status, h, hls]
      · simp [hls]
      · simp
  | some t =>
      refine ⟨{ alive := decide (now - t < 300), last_seen := some t },
        ?_, ?_, ?_⟩
      · simp [Crud.get_client_site_status, h, hls]
      · simp [hls]
      · simp

/-- Instances of the supporting lemma: in a registry with heartbeats
400 seconds old, 10 seconds old and absent, the crud-level computation
at time 1000 yields alive false, true and false respectively. -/
theorem get_client_site_status_alive_iff_recent_witness :
    (∃ st, Crud.get_client_site_status Fixtures.regHeartbeat "stale"
        1000 = some st ∧
      st.last_seen = Fixtures.siteStale.last_seen ∧
      (st.alive = true ↔ ∃ t, Fixtures.siteStale.last_seen = some t ∧
        (1000 : Int) - t < 300)) ∧
    Crud.get_client_site_status Fixtures.regHeartbeat "stale" 1000 =
      some { alive := false, last_seen := some 600 } ∧
    Crud.get_client_site_status Fixtures.regHeartbeat "fresh" 1000 =
      some { alive := true, last_seen := some 990 } ∧
    Crud.get_client_site_status Fixtures.regHeartbeat "never" 1000 =
      some { alive := false, last_seen := none } :=
  ⟨get_client_site_status_alive_iff_recent Fixtures.regHeartbeat "stale"
      1000 Fixtures.siteStale (by decide),
   by decide, by decide, by decide⟩

/-- C4: ensure_dns_record is idempotent. When the zone holds no record
for the subdomain it performs exactly one create and the record count
becomes 1, and a second call with the same address performs no write;
when a record already exists with the requested content it performs no
write and leaves the zone unchanged; when the existing record has
drifted it performs exactly one update, not a create. -/
theorem ensure_dns_record_idempotent
    (s : Cloudflare.DnsState) (S ip : String)
    (hconf : s.configured = true) :
    (Cloudflare.get_dns_record s S = none →
      ∃ r s1,
        Cloudflare.ensure_dns_record s S ip =
          (some r, s1, [.createRec S ip]) ∧
        Cloudflare.recordCount s S = 0 ∧
        Cloudflare.recordCount s1 S = 1 ∧
        Cloudflare.ensure_dns_record s1 S ip = (some r, s1, [])) ∧
    (∀ r0, Cloudflare.get_dns_record s S = some r0 → r0.content = ip →
      Cloudflare.ensure_dns_record s S ip = (some r0, s, [])) ∧
    (∀ r0, Cloudflare.get_dns_record s S = some r0 → r0.content ≠ ip →
      ∃ s1, Cloudflare.ensure_dns_record s S ip =
        (some { r0 with content := ip }, s1,
         [.updateRec r0.id S ip])) := by
  refine ⟨?_, ?_, ?_⟩
  · intro hget
    have hfil : s.records.filter
        (fun r => r.name == S && r.rtype == "A") = [] := by
      have h2 := hget
      simp only [Cloudflare.get_dns_record, hconf, if_true] at h2
      exact List.head?_eq_none_iff.mp h2
    refine ⟨{ id := toString s.nextId, name := S, rtype := "A",
              content := ip },
            { s with
              records := s.records ++
                [{ id := toString s.nextId, name := S, rtype := "A",
                   content := ip }],
              nextId := s.nextId + 1 }, ?_, ?_, ?_, ?_⟩
    · simp [Cloudflare.ensure_dns_record, hconf, hget,
        Cloudflare.create_dns_record]
    · simp [Cloudflare.recordCount, hfil]
    · simp [Cloudflare.recordCount, List.filter_append, hfil]
    · simp [Cloudflare.ensure_dns_record, hconf,
        Cloudflare.get_dns_record, List.filter_append, hfil]
  · intro r0 hget hc
    simp [Cloudflare.ensure_dns_record, hconf, hget, hc]
  · intro r0 hget hne
    refine ⟨{ s with
              records := s.records.map (fun r =>
                if r.id == r0.id then
                  { r with name := S, rtype := "A", content := ip }
                else r) }, ?_⟩
    simp [Cloudflare.ensure_dns_record, hconf, hget,
      Cloudflare.update_dns_record, bne_iff_ne, hne]

/-- C4 witness: on a configured empty zone, ensure for acme creates one
record, the zone then holds one record for acme, and a repeated call
with the same address performs no write; on a zone holding a drifted
acme record, ensure performs one update. -/
theorem ensure_dns_record_idempotent_witness :
    (∃ r s1,
      Cloudflare.ensure_dns_record Fixtures.dnsEmpty "acme" "1.2.3.4" =
        (some r, s1, [.createRec "acme" "1.2.3.4"]) ∧
      Cloudflare.recordCount Fixtures.dnsEmpty "acme" = 0 ∧
      Cloudflare.recordCount s1 "acme" = 1 ∧
      Cloudflare.ensure_dns_record s1 "acme" "1.2.3.4" =
        (some r, s1, [])) ∧
    (∃ s1, Cloudflare.ensure_dns_record Fixtures.dnsDrift "acme"
        "1.2.3.4" =
      (some { id := "r9", name := "acme", rtype := "A",
              content := "1.2.3.4" }, s1,
       [.updateRec "r9" "acme" "1.2.3.4"])) :=
  ⟨(ensure_dns_record_idempotent Fixtures.dnsEmpty "acme" "1.2.3.4"
      rfl).1 (by decide),
   (ensure_dns_record_idempotent Fixtures.dnsDrift "acme" "1.2.3.4"
      rfl).2.2 { id := "r9", name := "acme", rtype := "A",
                 content := "9.9.9.9" } (by decide) (by decide)⟩

/-- C2: after a successful create for a subdomain, a second create for
the same subdomain fails with AlreadyExists, performs no external call
at all, leaves the registry unchanged, and exactly one TenantRecord
with that subdomain exists. -/
theorem create_client_site_duplicate_rejected
    (env env2 : Service.CreateEnv) (reg reg1 : Registry)
    (S name name2 : String) (site : ClientSite)
    (tr : List Service.ExtCall)
    (h : Service.create_client_site env reg S name =
      (.ok site, reg1, tr)) :
    Service.create_client_site env2 reg1 S name2 =
      (.error (.alreadyExists S), reg1, []) ∧
    (reg1.sites.filter (fun c => c.subdomain == S)).length = 1 := by
  cases hf : findSite reg S with
  | some c => simp [Service.create_client_site, hf] at h
  | none =>
      cases hsf : env.schema_failure with
      | some msg => simp [Service.create_client_site, hf, hsf] at h
      | none =>
          simp only [Service.create_client_site, hf, hsf,
            Prod.mk.injEq, Except.ok.injEq] at h
          obtain ⟨hsite, hreg, htr⟩ := h
          have hfind1 : findSite reg1 S = some
              { id := env.new_id, subdomain := S, name := name,
                status := "active", is_active := true } := by
            rw [← hreg]
            exact find?_append_singleton _ _ _ hf (by simp)
          constructor
          · simp [Service.create_client_site, hfind1]
          · have hsites : reg1.sites = reg.sites ++
                [{ id := env.new_id, subdomain := S, name := name,
                   status := "active", is_active := true }] := by
              rw [← hreg]
            rw [hsites, List.filter_append,
              filter_eq_nil_of_find?_eq_none _ _ hf]
            simp

/-- C2 witness: creating acme on an empty registry succeeds; re-creating
it fails with AlreadyExists without touching any collaborator and the
registry keeps exactly one acme record. -/
theorem create_client_site_duplicate_rejected_witness :
    ∃ site reg1 tr,
      Service.create_client_site Fixtures.benignEnv Fixtures.emptyReg
        "acme" "Acme" = (.ok site, reg1, tr) ∧
      Service.create_client_site Fixtures.benignEnv reg1 "acme"
        "Acme" = (.error (.alreadyExists "acme"), reg1, []) ∧
      (reg1.sites.filter (fun c => c.subdomain == "acme")).length = 1 := by
  refine ⟨_, _, _, rfl, ?_⟩
  exact create_client_site_duplicate_rejected Fixtures.benignEnv
    Fixtures.benignEnv Fixtures.emptyReg _ "acme" "Acme" "Acme" _ _ rfl

/-- C3: when the fatal storage-namespace step fails during create, the
call returns that error having performed only the schema attempt, a
failed ProvisioningLogEntry is appended, no TenantRecord is persisted,
and the status lookup for the subdomain afterwards reports not found. -/
theorem create_client_site_schema_failure_atomic
    (env : Service.CreateEnv) (reg : Registry) (S name msg : String)
    (hmsg : env.schema_failure = some msg)
    (hf : findSite reg S = none) :
    ∃ reg1,
      Service.create_client_site env reg S name =
        (.error (.stepFailed msg), reg1, [.schemaCreate]) ∧
      reg1.sites = reg.sites ∧
      reg1.logs = reg.logs ++
        [{ client_site_id := none, subdomain := S, action := "create",
           status := "failed", error_message := some msg }] ∧
      Service.get_client_site_status reg1 S = .error (.notFound S) := by
  refine ⟨{ reg with
            logs := reg.logs ++
              [{ client_site_id := none, subdomain := S,
                 action := "create", status := "failed",
                 error_message := some msg }] }, ?_, rfl, rfl, ?_⟩
  · simp [Service.create_client_site, hf, hmsg]
  · have hf1 : findSite
        { reg with
          logs := reg.logs ++
            [{ client_site_id := none, subdomain := S,
               action := "create", status := "failed",
               error_message := some msg }] } S = none := hf
    simp [Service.get_client_site_status, hf1]

/-- C3 witness: with the schema step failing on an empty registry, the
create call for acme fails, records one failed log entry, persists no
record, and the subsequent status lookup reports not found. -/
theorem create_client_site_schema_failure_atomic_witness :
    ∃ reg1,
      Service.create_client_site Fixtures.envSchemaFail Fixtures.emptyReg
        "acme" "Acme" =
        (.error (.stepFailed "schema creation failed"), reg1,
         [.schemaCreate]) ∧
      reg1.sites = Fixtures.emptyReg.sites ∧
      reg1.logs = Fixtures.emptyReg.logs ++
        [{ client_site_id := none, subdomain := "acme",
           action := "create", status := "failed",
           error_message := some "schema creation failed" }] ∧
      Service.get_client_site_status reg1 "acme" =
        .error (.notFound "acme") :=
  create_client_site_schema_failure_atomic Fixtures.envSchemaFail
    Fixtures.emptyReg "acme" "Acme" "schema creation failed" rfl rfl

/-- C1 counterexample: a valid token minted with client_id tenant-a,
presented against a request whose host resolves to tenant-b, is accepted
by validate_jwt_client_id, not rejected: the auth context is returned
carrying the mismatched pair. -/
theorem validate_jwt_client_id_accepts_mismatched_tenant :
    ChildMiddleware.validate_jwt_client_id Fixtures.reqMismatch =
      .ok { user := some "user@example.com",
            client_id := some "tenant-a",
            tenant_subdomain := "tenant-b",
            tenant_id := some "tenant-a" } ∧
    ("tenant-a" : String) ≠ "tenant-b" :=
  ⟨rfl, by decide⟩

/-- C1 amended: validate_jwt_client_id rejects only a missing bearer
token (401) or a token failing signature or time-claim validation (401);
every valid token is accepted unconditionally, with the auth context
carrying the token client_id and the independently resolved subdomain,
with no cross-check between them and no rejection when the binding claim
is absent. -/
theorem validate_jwt_client_id_no_binding_check
    (req : ChildMiddleware.AuthRequest) :
    (req.authorization = none →
      ChildMiddleware.validate_jwt_client_id req =
        .error { status_code := 401, detail := "Missing bearer token" }) ∧
    (∀ tok, req.authorization = some tok → tok.valid = false →
      ChildMiddleware.validate_jwt_client_id req =
        .error { status_code := 401, detail := "Invalid token" }) ∧
    (∀ tok, req.authorization = some tok → tok.valid = true →
      ChildMiddleware.validate_jwt_client_id req =
        .ok { user := tok.claims.sub,
              client_id := tok.claims.client_id,
              tenant_subdomain := ChildMiddleware.resolve_subdomain req,
              tenant_id := tok.claims.client_id }) := by
  refine ⟨?_, ?_, ?_⟩
  · intro h
    simp [ChildMiddleware.validate_jwt_client_id, h]
  · intro tok h hv
    simp [ChildMiddleware.validate_jwt_client_id, h, hv]
  · intro tok h hv
    simp [ChildMiddleware.validate_jwt_client_id, h, hv]

/-- C1 witness: the no-binding-check theorem applied to the mismatched
request of the counterexample. -/
theorem validate_jwt_client_id_no_binding_check_witness :
    ChildMiddleware.validate_jwt_client_id Fixtures.reqMismatch =
      .ok { user := Fixtures.tokenMismatch.claims.sub,
            client_id := Fixtures.tokenMismatch.claims.client_id,
            tenant_subdomain :=
              ChildMiddleware.resolve_subdomain Fixtures.reqMismatch,
            tenant_id := Fixtures.tokenMismatch.claims.client_id } :=
  (validate_jwt_client_id_no_binding_check Fixtures.reqMismatch).2.2
    Fixtures.tokenMismatch rfl rfl

/-- C5 counterexample: the subdomain -bad- fails the repository format
check, yet create provisions it successfully: the storage-namespace step
runs and an active TenantRecord is persisted, with no ValidationError
raised anywhere. -/
theorem create_client_site_accepts_malformed_subdomain :
    ChildMiddleware.validate_subdomain_format "-bad-" = false ∧
    ∃ site reg1,
      Service.create_client_site Fixtures.benignEnv Fixtures.emptyReg
        "-bad-" "Bad" =
        (.ok site, reg1, [.schemaCreate, .adminSeed]) ∧
      site.subdomain = "-bad-" ∧ site.status = "active" := by
  exact ⟨by decide, _, _, rfl, rfl, rfl⟩

/-- C5 amended: create_client_site performs no subdomain format
validation at all: for every subdomain rejected by the format check,
provisioning still begins with the storage-namespace step and, when that
step succeeds, persists an active record for the malformed subdomain. -/
theorem create_client_site_no_format_validation
    (env : Service.CreateEnv) (reg : Registry) (S name : String)
    (_hbad : ChildMiddleware.validate_subdomain_format S = false)
    (hf : findSite reg S = none)
    (hsf : env.schema_failure = none) :
    ∃ site reg1 tr,
      Service.create_client_site env reg S name = (.ok site, reg1, tr) ∧
      tr.head? = some .schemaCreate ∧
      site.subdomain = S ∧ site.status = "active" := by
  simp only [Service.create_client_site, hf, hsf]
  exact ⟨_, _, _, rfl, rfl, rfl, rfl⟩

/-- C5 witness: the no-format-validation theorem applied to the
malformed subdomain of the counterexample. -/
theorem create_client_site_no_format_validation_witness :
    ∃ site reg1 tr,
      Service.create_client_site Fixtures.benignEnv Fixtures.emptyReg
        "-bad-" "Bad" = (.ok site, reg1, tr) ∧
      tr.head? = some .schemaCreate ∧
      site.subdomain = "-bad-" ∧ site.status = "active" :=
  create_client_site_no_format_validation Fixtures.benignEnv
    Fixtures.emptyReg "-bad-" "Bad" (by decide) rfl rfl

/-- C6 counterexample: deleting acme removes its record, so a subsequent
activate fails with NotFound rather than InvalidTransition; and suspend
on a tenant whose status is pending, a transition outside the claimed
state machine, succeeds and changes the status instead of failing. -/
theorem activate_after_delete_and_pending_suspend :
    (∃ reg1,
      Service.delete_client_site Fixtures.regAcme "acme" = .ok reg1 ∧
      Service.activate_client_site reg1 "acme" =
        .error (.notFound "acme")) ∧
    (∃ c reg2,
      Service.suspend_client_site Fixtures.regPending "pend" =
        .ok (c, reg2) ∧
      Fixtures.sitePending.status = "pending" ∧
      c.status = "suspended" ∧ c.is_active = false) := by
  exact ⟨⟨{ sites := [], logs := [] }, rfl, rfl⟩,
         ⟨_, _, rfl, rfl, rfl, rfl⟩⟩

/-- C6 amended: deleted tenants are hard-deleted, so activate and
suspend on a deleted (hence absent) tenant fail with NotFound; on any
existing tenant record, whatever its current status, activate and
suspend succeed unconditionally and set the status, performing no
state-machine validation. -/
theorem suspend_activate_unconditional (reg : Registry) (S : String) :
    (findSite reg S = none →
      Service.activate_client_site reg S = .error (.notFound S) ∧
      Service.suspend_client_site reg S = .error (.notFound S)) ∧
    (∀ c, findSite reg S = some c →
      (∃ reg1, Service.activate_client_site reg S =
        .ok ({ c with status := "active", is_active := true }, reg1)) ∧
      (∃ reg1, Service.suspend_client_site reg S =
        .ok ({ c with status := "suspended", is_active := false },
             reg1))) := by
  constructor
  · intro hf
    constructor
    · simp [Service.activate_client_site, hf]
    · simp [Service.suspend_client_site, hf]
  · intro c hf
    constructor
    · refine ⟨Registry.mk
        (reg.sites.map (fun x =>
          if x.subdomain == S then
            { c with status := "active", is_active := true }
          else x))
        (reg.logs ++
          [{ client_site_id := some c.id, subdomain := S,
             action := "activate", status := "completed" }]), ?_⟩
      simp [Service.activate_client_site, hf]
    · refine ⟨Registry.mk
        (reg.sites.map (fun x =>
          if x.subdomain == S then
            { c with status := "suspended", is_active := false }
          else x))
        (reg.logs ++
          [{ client_site_id := some c.id, subdomain := S,
             action := "suspend", status := "completed" }]), ?_⟩
      simp [Service.suspend_client_site, hf]

/-- C6 witness: the unconditional-transition theorem applied to the
pending tenant (suspend succeeds out of the state machine) and to an
absent tenant (NotFound). -/
theorem suspend_activate_unconditional_witness :
    (∃ reg1, Service.suspend_client_site Fixtures.regPending "pend" =
      .ok ({ Fixtures.sitePending with
             status := "suspended", is_active := false }, reg1)) ∧
    Service.activate_client_site Fixtures.emptyReg "ghost" =
      .error (.notFound "ghost") :=
  ⟨((suspend_activate_unconditional Fixtures.regPending "pend").2
      Fixtures.sitePending (by decide)).2,
   ((suspend_activate_unconditional Fixtures.emptyReg "ghost").1
      rfl).1⟩

/-- C8 counterexample: in a run whose admin-seeding step fails, the
completed log entry still records admin_user_seeded true, so the
recorded flag is not equivalent to the step having succeeded. -/
theorem admin_seeded_flag_true_despite_failure :
    Service.admin_step_succeeded Fixtures.envAdminFail = false ∧
    ∃ site tr,
      Service.create_client_site Fixtures.envAdminFail Fixtures.emptyReg
        "acme" "Acme" = (.ok site, Fixtures.regAfterAdminFail, tr) ∧
      Fixtures.regAfterAdminFail.logs.getLast? = some
        { client_site_id := some "id-3", subdomain := "acme",
          action := "create", status := "completed",
          error_message := none,
          extra_metadata := some
            { dns_created := false, dns_record_id := none,
              ssl_certificate_issued := false,
              admin_user_seeded := true } } := by
  exact ⟨rfl, _, _, rfl, rfl⟩

/-- C8 amended: on every successful create, the completed log entry
records dns_created exactly when the DNS step succeeded in this run and
ssl_certificate_issued exactly when the certificate step succeeded, but
admin_user_seeded is recorded as true unconditionally, regardless of the
admin-seeding outcome. -/
theorem step_metadata_flags
    (env : Service.CreateEnv) (reg reg1 : Registry) (S name : String)
    (site : ClientSite) (tr : List Service.ExtCall)
    (h : Service.create_client_site env reg S name =
      (.ok site, reg1, tr)) :
    ∃ meta : StepMetadata,
      reg1.logs.getLast? = some
        { client_site_id := some env.new_id, subdomain := S,
          action := "create", status := "completed",
          error_message := none, extra_metadata := some meta } ∧
      meta.dns_created = Service.dns_step_succeeded env ∧
      meta.ssl_certificate_issued = Service.ssl_step_succeeded env ∧
      meta.admin_user_seeded = true := by
  cases hf : findSite reg S with
  | some c => simp [Service.create_client_site, hf] at h
  | none =>
      cases hsf : env.schema_failure with
      | some msg => simp [Service.create_client_site, hf, hsf] at h
      | none =>
          simp only [Service.create_client_site, hf, hsf,
            Prod.mk.injEq, Except.ok.injEq] at h
          obtain ⟨hsite, hreg, htr⟩ := h
          refine ⟨{ dns_created := (Service.dnsResultOf env).isSome,
                    dns_record_id := (Service.dnsResultOf env).map
                      (fun r => r.id),
                    ssl_certificate_issued := ((Service.sslResultOf
                      env).map (fun r => r.success)).getD false,
                    admin_user_seeded := true }, ?_, ?_, ?_, rfl⟩
          · rw [← hreg]
            simp
          · unfold Service.dnsResultOf Service.dns_step_succeeded
            cases env.cloudflare_configured <;> simp
          · unfold Service.sslResultOf Service.ssl_step_succeeded
            cases hcc : env.cert_manager_configured <;>
              cases env.ssl_outcome <;> simp

/-- C8 witness: the step-metadata theorem applied to the failing
admin-seed run of the counterexample. -/
theorem step_metadata_flags_witness :
    ∃ meta : StepMetadata,
      Fixtures.regAfterAdminFail.logs.getLast? = some
        { client_site_id := some Fixtures.envAdminFail.new_id,
          subdomain := "acme", action := "create",
          status := "completed", error_message := none,
          extra_metadata := some meta } ∧
      meta.dns_created = Service.dns_step_succeeded
        Fixtures.envAdminFail ∧
      meta.ssl_certificate_issued = Service.ssl_step_succeeded
        Fixtures.envAdminFail ∧
      meta.admin_user_seeded = true :=
  step_metadata_flags Fixtures.envAdminFail Fixtures.emptyReg
    Fixtures.regAfterAdminFail "acme" "Acme" Fixtures.siteAdminFail
    [.schemaCreate, .adminSeed] rfl

/-- C9 counterexample: a request carrying a tenant context whose tenant
exists but is suspended is answered with 500, not with the claimed 403,
and one whose tenant is missing is answered with 500, not with the
claimed 404. -/
theorem inactive_tenant_rejected_with_500_not_403 :
    ParentMiddleware.validate_client_site_middleware Fixtures.reqCtx
      (.ok Fixtures.inactiveData) = .jsonResponse 500 ∧
    ParentMiddleware.validate_client_site_middleware Fixtures.reqCtx
      (.failure 404) = .jsonResponse 500 ∧
    (500 : Nat) ≠ 403 ∧ (500 : Nat) ≠ 404 :=
  ⟨rfl, rfl, by decide, by decide⟩

/-- C9 amended: the parent middleware lookup does distinguish the two
failure cases internally, raising a 404 HTTPException for a missing
tenant and a 403 HTTPException for an existing inactive one, but its
broad exception handler converts both rejections into a 500 response;
consequently every request carrying a tenant context is rejected and no
handler ever receives a validated tenant. -/
theorem middleware_distinguishes_internally_but_responds_500
    (req : ParentMiddleware.MwRequest)
    (resp : ParentMiddleware.ParentResponse) (sub : String)
    (hb : req.bypass_validation = false)
    (hp : (req.path == "/token" || req.path == "/users/me") = false)
    (hid : req.x_client_site_id = some sub) :
    (∀ code, resp = .failure code →
      (∃ d, (ParentMiddleware.validate_try_body sub resp).1 =
        .error (.httpExc 404 d)) ∧
      ParentMiddleware.validate_client_site_middleware req resp =
        .jsonResponse 500) ∧
    (∀ data, resp = .ok data →
      data.is_active = false ∨ data.status ≠ "active" →
      (∃ d, (ParentMiddleware.validate_try_body sub resp).1 =
        .error (.httpExc 403 d)) ∧
      ParentMiddleware.validate_client_site_middleware req resp =
        .jsonResponse 500) ∧
    (∀ data, ParentMiddleware.validate_client_site_middleware req resp ≠
      .handled (some data)) := by
  refine ⟨?_, ?_, ?_⟩
  · intro code hresp
    subst hresp
    refine ⟨⟨_, rfl⟩, ?_⟩
    simp [ParentMiddleware.validate_client_site_middleware,
      ParentMiddleware.validate_client_site, hb, hp, hid,
      ParentMiddleware.validate_try_body]
  · intro data hresp hcase
    subst hresp
    cases hact : data.is_active with
    | false =>
        refine ⟨⟨"Client site " ++ sub ++ " is not active", ?_⟩, ?_⟩
        · simp [ParentMiddleware.validate_try_body, hact]
        · simp [ParentMiddleware.validate_client_site_middleware,
            ParentMiddleware.validate_client_site, hb, hp, hid,
            ParentMiddleware.validate_try_body, hact]
    | true =>
        have hst : data.status ≠ "active" := by
          rcases hcase with hcase | hcase
          · rw [hact] at hcase; exact absurd hcase (by simp)
          · exact hcase
        refine ⟨⟨"Client site " ++ sub ++ " status is " ++ data.status,
          ?_⟩, ?_⟩
        · simp [ParentMiddleware.validate_try_body, hact, hst]
        · simp [ParentMiddleware.validate_client_site_middleware,
            ParentMiddleware.validate_client_site, hb, hp, hid,
            ParentMiddleware.validate_try_body, hact, hst]
  · intro data
    cases resp with
    | timeout =>
        simp [ParentMiddleware.validate_client_site_middleware,
          ParentMiddleware.validate_client_site, hb, hp, hid,
          ParentMiddleware.validate_try_body]
    | connectError =>
        simp [ParentMiddleware.validate_client_site_middleware,
          ParentMiddleware.validate_client_site, hb, hp, hid,
          ParentMiddleware.validate_try_body]
    | failure code =>
        simp [ParentMiddleware.validate_client_site_middleware,
          ParentMiddleware.validate_client_site, hb, hp, hid,
          ParentMiddleware.validate_try_body]
    | ok d =>
        cases hact : d.is_active with
        | false =>
            simp [ParentMiddleware.validate_client_site_middleware,
              ParentMiddleware.validate_client_site, hb, hp, hid,
              ParentMiddleware.validate_try_body, hact]
        | true =>
            cases hst : d.status == "active" with
            | false =>
                have hne : d.status ≠ "active" := by
                  simpa using hst
                simp [ParentMiddleware.validate_client_site_middleware,
                  ParentMiddleware.validate_client_site, hb, hp, hid,
                  ParentMiddleware.validate_try_body, hact, hne]
            | true =>
                simp [ParentMiddleware.validate_client_site_middleware,
                  ParentMiddleware.validate_client_site, hb, hp, hid,
                  ParentMiddleware.validate_try_body, hact,
                  eq_of_beq hst]

/-- C9 witness: the internal-distinction theorem applied to the concrete
request of the counterexample, for the missing-tenant and the
inactive-tenant responses. -/
theorem middleware_distinguishes_internally_witness :
    ((∃ d, (ParentMiddleware.validate_try_body "acme"
        (.failure 404)).1 = .error (.httpExc 404 d)) ∧
      ParentMiddleware.validate_client_site_middleware Fixtures.reqCtx
        (.failure 404) = .jsonResponse 500) ∧
    ((∃ d, (ParentMiddleware.validate_try_body "acme"
        (.ok Fixtures.inactiveData)).1 = .error (.httpExc 403 d)) ∧
      ParentMiddleware.validate_client_site_middleware Fixtures.reqCtx
        (.ok Fixtures.inactiveData) = .jsonResponse 500) :=
  ⟨(middleware_distinguishes_internally_but_responds_500 Fixtures.reqCtx
      (.failure 404) "acme" rfl rfl rfl).1 404 rfl,
   (middleware_distinguishes_internally_but_responds_500 Fixtures.reqCtx
      (.ok Fixtures.inactiveData) "acme" rfl rfl rfl).2.1
      Fixtures.inactiveData rfl (Or.inl rfl)⟩

/-- C10: on the success branch (existing, active tenant) the parent
validate_client_site evaluates the undefined name tenant_data after
assigning the request state, so a NameError is raised and the broad
exception handler turns it, like the 403 and 404 rejections, into a 500
HTTPException; therefore no request carrying a tenant context ever
completes validation and no handler ever receives a validated tenant
through this middleware. -/
theorem validate_client_site_never_succeeds
    (req : ParentMiddleware.MwRequest)
    (resp : ParentMiddleware.ParentResponse) (sub : String)
    (hb : req.bypass_validation = false)
    (hp : (req.path == "/token" || req.path == "/users/me") = false)
    (hid : req.x_client_site_id = some sub) :
    (∀ data, resp = .ok data → data.is_active = true →
      data.status = "active" →
      (ParentMiddleware.validate_try_body sub resp).1 =
        .error (.nameErr "tenant_data") ∧
      ParentMiddleware.validate_client_site req resp =
        (.error (.httpExc 500 "Error validating client site"),
         some data) ∧
      ParentMiddleware.validate_client_site_middleware req resp =
        .jsonResponse 500) ∧
    (∀ data, resp = .ok data →
      data.is_active = false ∨ data.status ≠ "active" →
      ParentMiddleware.validate_client_site_middleware req resp =
        .jsonResponse 500) ∧
    (∀ code, resp = .failure code →
      ParentMiddleware.validate_client_site_middleware req resp =
        .jsonResponse 500) ∧
    (∀ data, (ParentMiddleware.validate_client_site req resp).1 ≠
      .ok (some data)) := by
  refine ⟨?_, ?_, ?_, ?_⟩
  · intro data hresp hact hst
    subst hresp
    refine ⟨?_, ?_, ?_⟩
    · simp [ParentMiddleware.validate_try_body, hact, hst]
    · simp [ParentMiddleware.validate_client_site, hb, hp, hid,
        ParentMiddleware.validate_try_body, hact, hst]
    · simp [ParentMiddleware.validate_client_site_middleware,
        ParentMiddleware.validate_client_site, hb, hp, hid,
        ParentMiddleware.validate_try_body, hact, hst]
  · intro data hresp hcase
    subst hresp
    cases hact : data.is_active with
    | false =>
        simp [ParentMiddleware.validate_client_site_middleware,
          ParentMiddleware.validate_client_site, hb, hp, hid,
          ParentMiddleware.validate_try_body, hact]
    | true =>
        have hst : data.status ≠ "active" := by
          rcases hcase with hcase | hcase
          · rw [hact] at hcase; exact absurd hcase (by simp)
          · exact hcase
        simp [ParentMiddleware.validate_client_site_middleware,
          ParentMiddleware.validate_client_site, hb, hp, hid,
          ParentMiddleware.validate_try_body, hact, hst]
  · intro code hresp
    subst hresp
    simp [ParentMiddleware.validate_client_site_middleware,
      ParentMiddleware.validate_client_site, hb, hp, hid,
      ParentMiddleware.validate_try_body]
  · intro data
    cases resp with
    | timeout =>
        simp [ParentMiddleware.validate_client_site, hb, hp, hid,
          ParentMiddleware.validate_try_body]
    | connectError =>
        simp [ParentMiddleware.validate_client_site, hb, hp, hid,
          ParentMiddleware.validate_try_body]
    | failure code =>
        simp [ParentMiddleware.validate_client_site, hb, hp, hid,
          ParentMiddleware.validate_try_body]
    | ok d =>
        cases hact : d.is_active with
        | false =>
            simp [ParentMiddleware.validate_client_site, hb, hp, hid,
              ParentMiddleware.validate_try_body, hact]
        | true =>
            cases hst : d.status == "active" with
            | false =>
                have hne : d.status ≠ "active" := by
                  simpa using hst
                simp [ParentMiddleware.validate_client_site, hb, hp,
                  hid, ParentMiddleware.validate_try_body, hact, hne]
            | true =>
                simp [ParentMiddleware.validate_client_site, hb, hp,
                  hid, ParentMiddleware.validate_try_body, hact,
                  eq_of_beq hst]

/-- C10 witness: the never-succeeds theorem applied to a request with a
tenant context and a 200 response for an existing active tenant. -/
theorem validate_client_site_never_succeeds_witness :
    (ParentMiddleware.validate_try_body "acme"
      (.ok Fixtures.activeData)).1 = .error (.nameErr "tenant_data") ∧
    ParentMiddleware.validate_client_site Fixtures.reqCtx
      (.ok Fixtures.activeData) =
      (.error (.httpExc 500 "Error validating client site"),
       some Fixtures.activeData) ∧
    ParentMiddleware.validate_client_site_middleware Fixtures.reqCtx
      (.ok Fixtures.activeData) = .jsonResponse 500 :=
  (validate_client_site_never_succeeds Fixtures.reqCtx
    (.ok Fixtures.activeData) "acme" rfl rfl rfl).1
    Fixtures.activeData rfl rfl rfl

end Nectar
